import Mathlib

/-!
Verification of the rendits/local-dynamic-map core (`ldmlib.py`):
the CAM codec (construction, byte encoding/decoding, equality/hash)
and the LDM store (put/get, filtered iteration).

Impure inputs of the source (the wall clock `timestampits_now()`) are
modelled as explicit parameters named `now`.  Python `dict`s are
modelled as insertion-ordered association lists with the update-in-place
semantics of CPython dicts.  Python exceptions become `Except`/`Option`
results.  A CAM object constructed without `message_id` genuinely lacks
that attribute in the source (the default is written into the local
`kwargs` dict only, after `self.__dict__` was populated), so the model
stores `message_id` as `Option ℤ`, `none` meaning the attribute is
absent and any later `self.__dict__['message_id']` access raises.
-/

/-- Model of `gdt_now(timestampits)`: the source computes
`timestampits_now() % 65536`, ignoring its `timestampits` argument.
`now` models the value of `timestampits_now()` at the call. -/
def gdt_now (timestampits now : ℤ) : ℤ :=
  let _ := timestampits
  now % 65536

/-- Model of `timestampits_from_gdt(gdt)`: rounds `now` down to the
closest multiple of 65536 ms and adds `gdt`. -/
def timestampits_from_gdt (gdt now : ℤ) : ℤ :=
  (now - now % 65536) + gdt

/-- A CAM message object.  The 22 entries of `CAM.__attrs__` in wire
order, plus the derived absolute timestamp `timestampits`.
`message_id` is `Option ℤ` because the source object can lack the
attribute entirely (constructed without `message_id` in kwargs). -/
structure CAM where
  message_id : Option ℤ
  station_id : ℤ
  gen_delta_time_millis : ℤ
  container_mask : ℤ
  station_type : ℤ
  latitude : ℤ
  longitude : ℤ
  semi_major_axis_confidence : ℤ
  semi_minor_axis_confidence : ℤ
  semi_major_orientation : ℤ
  altitude : ℤ
  heading : ℤ
  heading_confidence : ℤ
  speed : ℤ
  speed_confidence : ℤ
  vehicle_length : ℤ
  vehicle_width : ℤ
  longitudinal_acceleration : ℤ
  longitudinal_acceleration_confidence : ℤ
  yaw_rate : ℤ
  yaw_rate_confidence : ℤ
  vehicle_role : ℤ
  timestampits : ℤ

instance : DecidableEq CAM := fun a b =>
  decidable_of_iff
    (a.message_id = b.message_id ∧ a.station_id = b.station_id ∧
      a.gen_delta_time_millis = b.gen_delta_time_millis ∧
      a.container_mask = b.container_mask ∧ a.station_type = b.station_type ∧
      a.latitude = b.latitude ∧ a.longitude = b.longitude ∧
      a.semi_major_axis_confidence = b.semi_major_axis_confidence ∧
      a.semi_minor_axis_confidence = b.semi_minor_axis_confidence ∧
      a.semi_major_orientation = b.semi_major_orientation ∧
      a.altitude = b.altitude ∧ a.heading = b.heading ∧
      a.heading_confidence = b.heading_confidence ∧ a.speed = b.speed ∧
      a.speed_confidence = b.speed_confidence ∧
      a.vehicle_length = b.vehicle_length ∧ a.vehicle_width = b.vehicle_width ∧
      a.longitudinal_acceleration = b.longitudinal_acceleration ∧
      a.longitudinal_acceleration_confidence = b.longitudinal_acceleration_confidence ∧
      a.yaw_rate = b.yaw_rate ∧ a.yaw_rate_confidence = b.yaw_rate_confidence ∧
      a.vehicle_role = b.vehicle_role ∧ a.timestampits = b.timestampits)
    (by cases a; cases b; simp)

/-- The keyword arguments of `CAM.__init__`: a partial assignment of
the 22 wire fields (`none` = the keyword was not supplied). -/
structure CAMKwargs where
  message_id : Option ℤ := none
  station_id : Option ℤ := none
  gen_delta_time_millis : Option ℤ := none
  container_mask : Option ℤ := none
  station_type : Option ℤ := none
  latitude : Option ℤ := none
  longitude : Option ℤ := none
  semi_major_axis_confidence : Option ℤ := none
  semi_minor_axis_confidence : Option ℤ := none
  semi_major_orientation : Option ℤ := none
  altitude : Option ℤ := none
  heading : Option ℤ := none
  heading_confidence : Option ℤ := none
  speed : Option ℤ := none
  speed_confidence : Option ℤ := none
  vehicle_length : Option ℤ := none
  vehicle_width : Option ℤ := none
  longitudinal_acceleration : Option ℤ := none
  longitudinal_acceleration_confidence : Option ℤ := none
  yaw_rate : Option ℤ := none
  yaw_rate_confidence : Option ℤ := none
  vehicle_role : Option ℤ := none

/-- Errors raised by `CAM.__init__` (`ValueError`s in the source). -/
inductive ConstructError where
  | invalidMessageId
  | missingRequiredField
deriving DecidableEq, Repr

/-- Model of `CAM.__init__`.  Mirrors the source: the object dict is
first filled with the unavailable indicators, then overwritten with the
supplied kwargs; the `message_id` default of 2 is written only into the
local `kwargs` dict (so the object's `message_id` stays absent when the
keyword was omitted); validation then checks `kwargs['message_id'] == 2`,
then presence of `station_id`, then of `gen_delta_time_millis`; finally
the absolute time is derived from the GDT and the current clock `now`. -/
def construct (k : CAMKwargs) (now : ℤ) : Except ConstructError CAM :=
  if (k.message_id.getD 2) ≠ 2 then
    .error .invalidMessageId
  else
    match k.station_id with
    | none => .error .missingRequiredField
    | some sid =>
      match k.gen_delta_time_millis with
      | none => .error .missingRequiredField
      | some gdt =>
        .ok {
          message_id := k.message_id
          station_id := sid
          gen_delta_time_millis := gdt
          container_mask := k.container_mask.getD 0
          station_type := k.station_type.getD 0
          latitude := k.latitude.getD 900000001
          longitude := k.longitude.getD 1800000001
          semi_major_axis_confidence := k.semi_major_axis_confidence.getD 4095
          semi_minor_axis_confidence := k.semi_minor_axis_confidence.getD 4095
          semi_major_orientation := k.semi_major_orientation.getD 3601
          altitude := k.altitude.getD 800001
          heading := k.heading.getD 3601
          heading_confidence := k.heading_confidence.getD 127
          speed := k.speed.getD 16383
          speed_confidence := k.speed_confidence.getD 127
          vehicle_length := k.vehicle_length.getD 1023
          vehicle_width := k.vehicle_width.getD 62
          longitudinal_acceleration := k.longitudinal_acceleration.getD 161
          longitudinal_acceleration_confidence :=
            k.longitudinal_acceleration_confidence.getD 102
          yaw_rate := k.yaw_rate.getD 32767
          yaw_rate_confidence := k.yaw_rate_confidence.getD 8
          vehicle_role := k.vehicle_role.getD 0
          timestampits := timestampits_from_gdt gdt now }

/-- Big-endian bytes of a value packed with struct format `b` (signed
8-bit): one byte, the two's complement residue. -/
def bytes8 (v : ℤ) : List ℤ :=
  [v % 256]

/-- Big-endian bytes of a value packed with struct format `i` (signed
32-bit): four bytes of the two's complement residue, most significant
first. -/
def bytes32 (v : ℤ) : List ℤ :=
  let w := v % 4294967296
  [w / 16777216 % 256, w / 65536 % 256, w / 256 % 256, w % 256]

/-- The range `struct.pack` accepts for format `b`. -/
def fits8 (v : ℤ) : Prop := -128 ≤ v ∧ v ≤ 127

/-- The range `struct.pack` accepts for format `i`. -/
def fits32 (v : ℤ) : Prop := -2147483648 ≤ v ∧ v ≤ 2147483647

instance (v : ℤ) : Decidable (fits8 v) :=
  inferInstanceAs (Decidable (-128 ≤ v ∧ v ≤ 127))
instance (v : ℤ) : Decidable (fits32 v) :=
  inferInstanceAs (Decidable (-2147483648 ≤ v ∧ v ≤ 2147483647))

/-- All 22 wire fields of a CAM lie within their slot of
`bytes_format = '!biibiiiiiiiiiiiiiiiiii'` (note: `message_id` and
`container_mask` are `b` slots, everything else `i`). -/
def packable (mid : ℤ) (c : CAM) : Prop :=
  fits8 mid ∧ fits32 c.station_id ∧ fits32 c.gen_delta_time_millis ∧
    fits8 c.container_mask ∧ fits32 c.station_type ∧ fits32 c.latitude ∧
    fits32 c.longitude ∧ fits32 c.semi_major_axis_confidence ∧
    fits32 c.semi_minor_axis_confidence ∧ fits32 c.semi_major_orientation ∧
    fits32 c.altitude ∧ fits32 c.heading ∧ fits32 c.heading_confidence ∧
    fits32 c.speed ∧ fits32 c.speed_confidence ∧ fits32 c.vehicle_length ∧
    fits32 c.vehicle_width ∧ fits32 c.longitudinal_acceleration ∧
    fits32 c.longitudinal_acceleration_confidence ∧ fits32 c.yaw_rate ∧
    fits32 c.yaw_rate_confidence ∧ fits32 c.vehicle_role

instance (mid : ℤ) (c : CAM) : Decidable (packable mid c) :=
  inferInstanceAs (Decidable (fits8 mid ∧ fits32 c.station_id ∧
    fits32 c.gen_delta_time_millis ∧ fits8 c.container_mask ∧
    fits32 c.station_type ∧ fits32 c.latitude ∧ fits32 c.longitude ∧
    fits32 c.semi_major_axis_confidence ∧
    fits32 c.semi_minor_axis_confidence ∧
    fits32 c.semi_major_orientation ∧ fits32 c.altitude ∧
    fits32 c.heading ∧ fits32 c.heading_confidence ∧ fits32 c.speed ∧
    fits32 c.speed_confidence ∧ fits32 c.vehicle_length ∧
    fits32 c.vehicle_width ∧ fits32 c.longitudinal_acceleration ∧
    fits32 c.longitudinal_acceleration_confidence ∧ fits32 c.yaw_rate ∧
    fits32 c.yaw_rate_confidence ∧ fits32 c.vehicle_role))

/-- Model of `CAM.as_bytes`: reads all entries of `__attrs__` from the
object dict (raising `KeyError`, i.e. `none`, when `message_id` is
absent) and packs them with `struct.pack(bytes_format, ...)`, which
fails (`struct.error`, i.e. `none`) when some value is out of range. -/
def CAM.as_bytes (c : CAM) : Option (List ℤ) :=
  match c.message_id with
  | none => none
  | some mid =>
    if packable mid c then
      some (bytes8 mid ++ bytes32 c.station_id ++
        bytes32 c.gen_delta_time_millis ++ bytes8 c.container_mask ++
        bytes32 c.station_type ++ bytes32 c.latitude ++ bytes32 c.longitude ++
        bytes32 c.semi_major_axis_confidence ++
        bytes32 c.semi_minor_axis_confidence ++
        bytes32 c.semi_major_orientation ++ bytes32 c.altitude ++
        bytes32 c.heading ++ bytes32 c.heading_confidence ++
        bytes32 c.speed ++ bytes32 c.speed_confidence ++
        bytes32 c.vehicle_length ++ bytes32 c.vehicle_width ++
        bytes32 c.longitudinal_acceleration ++
        bytes32 c.longitudinal_acceleration_confidence ++
        bytes32 c.yaw_rate ++ bytes32 c.yaw_rate_confidence ++
        bytes32 c.vehicle_role)
    else none

/-- Unpack a struct `b` slot: one byte to a signed 8-bit value. -/
def unpack8 (b : ℤ) : ℤ :=
  if b < 128 then b else b - 256

/-- Unpack a struct `i` slot: four big-endian bytes to a signed 32-bit
value. -/
def unpack32 (b0 b1 b2 b3 : ℤ) : ℤ :=
  let u := b0 * 16777216 + b1 * 65536 + b2 * 256 + b3
  if u < 2147483648 then u else u - 4294967296

/-- Model of `CAM.from_bytes`: `struct.unpack` fails unless the buffer
length is exactly `struct.calcsize('!biibiiiiiiiiiiiiiiiiii') = 82`;
the unpacked values are zipped with `__attrs__` and passed as kwargs to
`CAM.__init__` (whose validation may still fail, e.g. when the decoded
`message_id` is not 2).  `now` models the clock at the call. -/
def CAM.from_bytes (b : List ℤ) (now : ℤ) : Option CAM :=
  if b.length = 82 then
    let g := fun i => b.getD i 0
    let f := fun i => unpack32 (g i) (g (i+1)) (g (i+2)) (g (i+3))
    let k : CAMKwargs := {
      message_id := some (unpack8 (g 0))
      station_id := some (f 1)
      gen_delta_time_millis := some (f 5)
      container_mask := some (unpack8 (g 9))
      station_type := some (f 10)
      latitude := some (f 14)
      longitude := some (f 18)
      semi_major_axis_confidence := some (f 22)
      semi_minor_axis_confidence := some (f 26)
      semi_major_orientation := some (f 30)
      altitude := some (f 34)
      heading := some (f 38)
      heading_confidence := some (f 42)
      speed := some (f 46)
      speed_confidence := some (f 50)
      vehicle_length := some (f 54)
      vehicle_width := some (f 58)
      longitudinal_acceleration := some (f 62)
      longitudinal_acceleration_confidence := some (f 66)
      yaw_rate := some (f 70)
      yaw_rate_confidence := some (f 74)
      vehicle_role := some (f 78) }
    match construct k now with
    | .ok c => some c
    | .error _ => none
  else none

/-- Model of `CAM.as_dict`: `{field: self.__dict__[field] for field in
__attrs__}`; raises `KeyError` (`none`) when `message_id` is absent.
The derived `timestampits` is not among `__attrs__` and is excluded. -/
def CAM.as_dict (c : CAM) : Option (List (String × ℤ)) :=
  match c.message_id with
  | none => none
  | some mid =>
    some [("message_id", mid), ("station_id", c.station_id),
      ("gen_delta_time_millis", c.gen_delta_time_millis),
      ("container_mask", c.container_mask), ("station_type", c.station_type),
      ("latitude", c.latitude), ("longitude", c.longitude),
      ("semi_major_axis_confidence", c.semi_major_axis_confidence),
      ("semi_minor_axis_confidence", c.semi_minor_axis_confidence),
      ("semi_major_orientation", c.semi_major_orientation),
      ("altitude", c.altitude), ("heading", c.heading),
      ("heading_confidence", c.heading_confidence), ("speed", c.speed),
      ("speed_confidence", c.speed_confidence),
      ("vehicle_length", c.vehicle_length),
      ("vehicle_width", c.vehicle_width),
      ("longitudinal_acceleration", c.longitudinal_acceleration),
      ("longitudinal_acceleration_confidence",
        c.longitudinal_acceleration_confidence),
      ("yaw_rate", c.yaw_rate), ("yaw_rate_confidence", c.yaw_rate_confidence),
      ("vehicle_role", c.vehicle_role)]

/-- Model of `CAM.__eq__`: walks `__attrs__` comparing
`self.__dict__[field] != other.__dict__[field]`; the first field is
`message_id`, so if either object lacks it a `KeyError` is raised
(`none`); all other fields are always present. -/
def camEq (a b : CAM) : Option Bool :=
  match a.message_id, b.message_id with
  | some x, some y =>
    some (decide (x = y) && decide (a.station_id = b.station_id) &&
      decide (a.gen_delta_time_millis = b.gen_delta_time_millis) &&
      decide (a.container_mask = b.container_mask) &&
      decide (a.station_type = b.station_type) &&
      decide (a.latitude = b.latitude) && decide (a.longitude = b.longitude) &&
      decide (a.semi_major_axis_confidence = b.semi_major_axis_confidence) &&
      decide (a.semi_minor_axis_confidence = b.semi_minor_axis_confidence) &&
      decide (a.semi_major_orientation = b.semi_major_orientation) &&
      decide (a.altitude = b.altitude) && decide (a.heading = b.heading) &&
      decide (a.heading_confidence = b.heading_confidence) &&
      decide (a.speed = b.speed) &&
      decide (a.speed_confidence = b.speed_confidence) &&
      decide (a.vehicle_length = b.vehicle_length) &&
      decide (a.vehicle_width = b.vehicle_width) &&
      decide (a.longitudinal_acceleration = b.longitudinal_acceleration) &&
      decide (a.longitudinal_acceleration_confidence =
        b.longitudinal_acceleration_confidence) &&
      decide (a.yaw_rate = b.yaw_rate) &&
      decide (a.yaw_rate_confidence = b.yaw_rate_confidence) &&
      decide (a.vehicle_role = b.vehicle_role))
  | _, _ => none

/-- The LDM store `self.cams`: a Python dict from station_id to CAM,
modelled as an insertion-ordered association list with unique keys. -/
abbrev LDMStore := List (ℤ × CAM)

/-- Error raised by `LDM.__getitem__` on an absent key (`KeyError`). -/
inductive LdmError where
  | unknownStation
deriving DecidableEq, Repr

/-- Model of `LDM.__setitem__` (`self.cams[station_id] = cam`): CPython
dict assignment updates the existing slot in place when the key is
present, else appends the new pair at the end. -/
def ldmPut (m : LDMStore) (s : ℤ) (c : CAM) : LDMStore :=
  if m.any (fun p => p.1 == s) then
    m.map (fun p => if p.1 == s then (s, c) else p)
  else m ++ [(s, c)]

/-- Model of `LDM.__getitem__` (`return self.cams[station_id]`). -/
def ldmGet (m : LDMStore) (s : ℤ) : Except LdmError CAM :=
  match m.find? (fun p => p.1 == s) with
  | some p => .ok p.2
  | none => .error .unknownStation

/-- Apply a sequence of `Put` operations to the empty store created by
`LDM.__init__`. -/
def putAll (ops : List (ℤ × CAM)) : LDMStore :=
  ops.foldl (fun m p => ldmPut m p.1 p.2) ([] : List (ℤ × CAM))

/-- The CAM of the most recent `Put` for station `s` in `ops`, if any. -/
def lastPut (ops : List (ℤ × CAM)) (s : ℤ) : Option CAM :=
  (ops.reverse.find? (fun p => p.1 == s)).map Prod.snd

/-- Error raised by `LDM.iter_cams` (`ValueError` in the source). -/
inductive FilterError where
  | invalidFilterArgs
deriving DecidableEq, Repr

/-- Comparison `x > bound` against a bound that is `math.inf` when
`none`: `x > inf` is false for every finite `x`. -/
def gtBound (x : ℝ) : Option ℝ → Prop
  | none => False
  | some b => b < x

/-- Model of `LDM.iter_cams`.  `position`, `max_distance`, `max_age`
are `None` (`none`) when omitted; `now` models the single
`timestampits_now()` snapshot taken before the loop.  Mirrors the
source: raise if `max_distance` is given without `position`; substitute
`math.inf` for an omitted `max_distance`/`max_age` and `(0.0, 0.0)`
(with `max_distance = inf`) for an omitted `position`; then yield every
stored CAM whose age does not exceed `max_age` and whose planar
Euclidean distance from `position` (in raw wire units of
`cam['longitude']`, `cam['latitude']`) does not exceed `max_distance`.
The generator's yields are collected into a list. -/
noncomputable def iter_cams (m : LDMStore) (position : Option (ℝ × ℝ))
    (max_distance max_age : Option ℝ) (now : ℤ) :
    Except FilterError (List CAM) :=
  if max_distance.isSome ∧ position.isNone then
    .error .invalidFilterArgs
  else
    let md : Option ℝ := if position.isNone then none else max_distance
    let p : ℝ × ℝ := position.getD (0, 0)
    .ok ((m.map Prod.snd).filter fun cam =>
      have := Classical.propDecidable
      decide (¬ gtBound ((now : ℝ) - (cam.timestampits : ℝ)) max_age ∧
        ¬ gtBound (Real.sqrt (((cam.longitude : ℝ) - p.1) ^ 2 +
          ((cam.latitude : ℝ) - p.2) ^ 2)) md))

lemma find?_map_replace (m : LDMStore) (s' s : ℤ) (c : CAM) (hss : s' ≠ s) :
    (m.map (fun p => if p.1 == s' then (s', c) else p)).find?
        (fun p => p.1 == s) =
      m.find? (fun p => p.1 == s) := by
  induction m with
  | nil => rfl
  | cons q t ih =>
    by_cases hq : q.1 = s'
    · rw [List.map_cons, if_pos (by simpa using hq)]
      rw [List.find?_cons_of_neg _ (by simpa using hss),
        List.find?_cons_of_neg _ (by simp [hq, hss])]
      exact ih
    · rw [List.map_cons, if_neg (by simpa using hq)]
      by_cases hqs : q.1 = s
      · rw [List.find?_cons_of_pos _ (by simpa using hqs),
          List.find?_cons_of_pos _ (by simpa using hqs)]
      · rw [List.find?_cons_of_neg _ (by simpa using hqs),
          List.find?_cons_of_neg _ (by simpa using hqs)]
        exact ih

lemma find?_map_replace_self (m : LDMStore) (s : ℤ) (c : CAM)
    (hany : m.any (fun p => p.1 == s) = true) :
    (m.map (fun p => if p.1 == s then (s, c) else p)).find?
        (fun p => p.1 == s) =
      some (s, c) := by
  induction m with
  | nil => simp at hany
  | cons q t ih =>
    by_cases hq : q.1 = s
    · rw [List.map_cons, if_pos (by simpa using hq)]
      rw [List.find?_cons_of_pos _ (by simp)]
    · rw [List.map_cons, if_neg (by simpa using hq)]
      rw [List.find?_cons_of_neg _ (by simpa using hq)]
      apply ih
      simpa [hq] using hany

lemma find?_ldmPut (m : LDMStore) (s' : ℤ) (c : CAM) (s : ℤ) :
    (ldmPut m s' c).find? (fun p => p.1 == s) =
      if s' = s then some (s', c) else m.find? (fun p => p.1 == s) := by
  unfold ldmPut
  by_cases hss : s' = s
  · subst hss
    rw [if_pos rfl]
    split
    next hany => exact find?_map_replace_self m s' c hany
    next hany =>
      rw [List.find?_append]
      have hnone : m.find? (fun p => p.1 == s') = none := by
        rw [List.find?_eq_none]
        intro x hx hpx
        exact hany (List.any_eq_true.mpr ⟨x, hx, hpx⟩)
      simp [hnone]
  · rw [if_neg hss]
    split
    next hany => exact find?_map_replace m s' s c hss
    next hany =>
      rw [List.find?_append]
      cases hf : m.find? (fun p => p.1 == s) with
      | some p => simp [hf]
      | none => simp [hf, hss]

lemma find?_putAll_from (ops : List (ℤ × CAM)) (m : LDMStore) (s : ℤ) :
    (ops.foldl (fun acc p => ldmPut acc p.1 p.2) m).find?
        (fun p => p.1 == s) =
      match lastPut ops s with
      | some c => some (s, c)
      | none => m.find? (fun p => p.1 == s) := by
  induction ops generalizing m with
  | nil => simp [lastPut]
  | cons op rest ih =>
    rw [List.foldl_cons, ih]
    cases hl : lastPut rest s with
    | some c =>
      have : lastPut (op :: rest) s = some c := by
        simp only [lastPut, List.reverse_cons, List.find?_append] at hl ⊢
        cases hrf : (rest.reverse.find? fun p => p.1 == s) with
        | some p => simp [hrf] at hl ⊢; exact hl
        | none => simp [hrf] at hl
      rw [this]
    | none =>
      have hrn : (rest.reverse.find? fun p => p.1 == s) = none := by
        simp only [lastPut] at hl
        cases hrf : (rest.reverse.find? fun p => p.1 == s) with
        | some p => simp [hrf] at hl
        | none => rfl
      rw [find?_ldmPut]
      by_cases hop : op.1 = s
      · have : lastPut (op :: rest) s = some op.2 := by
          simp [lastPut, List.find?_append, hrn, hop]
        rw [this, if_pos hop, hop]
      · have : lastPut (op :: rest) s = none := by
          simp [lastPut, List.find?_append, hrn, hop]
        rw [this, if_neg hop]

/-- C10: for every sequence of Put operations applied to an initially
empty store, Get(s) returns the CAM of the most recent Put(s, cam) in
the sequence (unconditional overwrite), and Get(s) fails with
UnknownStation if and only if no Put for station s has occurred.
Put (`ldmPut`) is a total function of the model, so it never fails. -/
theorem ldmGet_putAll_eq_lastPut (ops : List (ℤ × CAM)) (s : ℤ) :
    ldmGet (putAll ops) s =
      match lastPut ops s with
      | some c => .ok c
      | none => .error .unknownStation := by
  unfold ldmGet putAll
  rw [find?_putAll_from]
  cases hl : lastPut ops s with
  | some c => rfl
  | none => simp

/-- C6: `iter_cams` fails (with the InvalidFilterArgs error) precisely
when `max_distance` is supplied and `position` is not; every other
argument combination succeeds. -/
theorem iter_cams_error_iff (m : LDMStore) (position : Option (ℝ × ℝ))
    (max_distance max_age : Option ℝ) (now : ℤ) :
    iter_cams m position max_distance max_age now =
        .error .invalidFilterArgs ↔
      (max_distance.isSome ∧ position.isNone) := by
  unfold iter_cams
  split
  next h => simpa using h
  next h => simpa using h

/-- C4: the source's `gdt_now(timestampits)` ignores its argument and
returns `timestampits_now() % 65536` instead of `timestampits % 65536`:
at argument `ts = 1` evaluated when the clock reads 0 it returns 0,
while `ts mod 65536 = 1`. -/
theorem gdt_now_ignores_argument :
    gdt_now 1 0 = 0 ∧ (1 : ℤ) % 65536 = 1 ∧ gdt_now 1 0 ≠ 1 % 65536 := by
  decide

/-- C2: constructing with only the two required fields succeeds, but
the resulting object's `message_id` attribute is absent (`none`), not
the constant 2: the source writes the default 2 into its local `kwargs`
dict only after `self.__dict__` has already been populated. -/
theorem construct_without_message_id_leaves_it_unset :
    ∃ c, construct { station_id := some 1, gen_delta_time_millis := some 0 }
        0 = .ok c ∧
      c.message_id = none ∧ c.message_id ≠ some 2 := by
  refine ⟨_, rfl, rfl, by decide⟩

/-- C8: constructing with only `station_id` and `gen_delta_time_millis`
supplied yields a CAM whose optional fields all carry their documented
unavailable indicators. -/
theorem construct_defaults_to_unavailable_indicators (sid g now : ℤ) :
    construct { station_id := some sid, gen_delta_time_millis := some g }
        now =
      .ok
        { message_id := none
          station_id := sid
          gen_delta_time_millis := g
          container_mask := 0
          station_type := 0
          latitude := 900000001
          longitude := 1800000001
          semi_major_axis_confidence := 4095
          semi_minor_axis_confidence := 4095
          semi_major_orientation := 3601
          altitude := 800001
          heading := 3601
          heading_confidence := 127
          speed := 16383
          speed_confidence := 127
          vehicle_length := 1023
          vehicle_width := 62
          longitudinal_acceleration := 161
          longitudinal_acceleration_confidence := 102
          yaw_rate := 32767
          yaw_rate_confidence := 8
          vehicle_role := 0
          timestampits := timestampits_from_gdt g now } := by
  rfl

/-- C7 counterexample: with `message_id = 3` supplied and `station_id`
absent, construction fails with InvalidMessageId, not with
MissingRequiredField as the claim's second biconditional requires. -/
theorem construct_error_priority_counterexample :
    construct { message_id := some 3 } 0 = .error .invalidMessageId ∧
      ({ message_id := some 3 } : CAMKwargs).station_id = none ∧
      ConstructError.invalidMessageId ≠ ConstructError.missingRequiredField :=
  ⟨rfl, rfl, by decide⟩

/-- C7 amended: construction fails with InvalidMessageId iff message_id
is present and differs from 2; otherwise (the message_id check runs
first) it fails with MissingRequiredField iff station_id or
gen_delta_time_millis is absent; in all remaining cases it succeeds. -/
theorem construct_error_characterization (k : CAMKwargs) (now : ℤ) :
    (construct k now = .error .invalidMessageId ↔
      ∃ v, k.message_id = some v ∧ v ≠ 2) ∧
    (construct k now = .error .missingRequiredField ↔
      ((∀ v, k.message_id = some v → v = 2) ∧
        (k.station_id = none ∨ k.gen_delta_time_millis = none))) ∧
    ((∃ c, construct k now = .ok c) ↔
      ((∀ v, k.message_id = some v → v = 2) ∧
        k.station_id ≠ none ∧ k.gen_delta_time_millis ≠ none)) := by
  cases hm : k.message_id with
  | none =>
    cases hs : k.station_id with
    | none => simp [construct, hm, hs]
    | some sid =>
      cases hg : k.gen_delta_time_millis with
      | none => simp [construct, hm, hs, hg]
      | some g => simp [construct, hm, hs, hg]
  | some v =>
    by_cases hv : v = 2
    · subst hv
      cases hs : k.station_id with
      | none => simp [construct, hm, hs]
      | some sid =>
        cases hg : k.gen_delta_time_millis with
        | none => simp [construct, hm, hs, hg]
        | some g => simp [construct, hm, hs, hg]
    · simp [construct, hm, hv]

/-- A concrete CAM with `message_id = 2` and every other wire field 0,
used to evaluate the codec on explicit inputs. -/
def camZero : CAM :=
  { message_id := some 2
    station_id := 0
    gen_delta_time_millis := 0
    container_mask := 0
    station_type := 0
    latitude := 0
    longitude := 0
    semi_major_axis_confidence := 0
    semi_minor_axis_confidence := 0
    semi_major_orientation := 0
    altitude := 0
    heading := 0
    heading_confidence := 0
    speed := 0
    speed_confidence := 0
    vehicle_length := 0
    vehicle_width := 0
    longitudinal_acceleration := 0
    longitudinal_acceleration_confidence := 0
    yaw_rate := 0
    yaw_rate_confidence := 0
    vehicle_role := 0
    timestampits := 0 }

/-- C3 counterexample: the encoded form of a CAM is 82 bytes, not the
claimed 1 + 4 × 21 = 85 bytes (`container_mask` occupies a signed
8-bit slot, not a 32-bit one). -/
theorem encoded_length_is_82_not_85 :
    (CAM.as_bytes camZero).map List.length = some 82 ∧ (82 : ℕ) ≠ 85 := by
  constructor
  · rfl
  · decide

/-- C3 amended: `message_id` and `container_mask` occupy signed 8-bit
slots and the remaining 20 fields signed 32-bit big-endian slots, so
every successfully encoded CAM is exactly 2 × 1 + 20 × 4 = 82 bytes
long, and decoding fails on any buffer of a different length. -/
theorem wire_size_is_fixed_82 :
    (∀ (c : CAM) (bs : List ℤ), CAM.as_bytes c = some bs →
      bs.length = 82) ∧
    (∀ (b : List ℤ) (now : ℤ), b.length ≠ 82 →
      CAM.from_bytes b now = none) := by
  constructor
  · intro c bs h
    cases hm : c.message_id with
    | none => simp [CAM.as_bytes, hm] at h
    | some mid =>
      simp only [CAM.as_bytes, hm] at h
      rw [Option.ite_none_right_eq_some] at h
      obtain ⟨hp, h'⟩ := h
      have h2 := Option.some.inj h'
      subst h2
      simp [bytes8, bytes32]
  · intro b now h
    unfold CAM.from_bytes
    rw [if_neg h]

/-- C3 amended, witness: the all-zero CAM encodes to an explicit
82-byte buffer, and decoding the empty buffer fails. -/
theorem wire_size_is_fixed_82_witness :
    ((2 : ℤ) :: List.replicate 81 (0 : ℤ)).length = 82 ∧
      CAM.from_bytes [] 0 = none :=
  ⟨wire_size_is_fixed_82.1 camZero (2 :: List.replicate 81 0) (by decide),
    wire_size_is_fixed_82.2 [] 0 (by decide)⟩

/-- Like `camZero` but differing only in the derived (non-wire)
`timestampits` field. -/
def camZeroLater : CAM :=
  { camZero with timestampits := 65540 }

/-- Like `camZero` but differing only in `vehicle_role`, the 22nd wire
field. -/
def camZeroRole : CAM :=
  { camZero with vehicle_role := 1 }

/-- C9 counterexample: two CAMs that agree on the first 21 wire fields
(message_id through yaw_rate_confidence) but differ in the 22nd
(vehicle_role) are not equal, so equality over only 21 wire fields does
not characterize `__eq__`: the comparison runs over 22 wire fields. -/
theorem cam_eq_21_fields_counterexample :
    camEq camZero camZeroRole = some false ∧
      camZero.message_id = camZeroRole.message_id ∧
      camZero.station_id = camZeroRole.station_id ∧
      camZero.gen_delta_time_millis = camZeroRole.gen_delta_time_millis ∧
      camZero.container_mask = camZeroRole.container_mask ∧
      camZero.station_type = camZeroRole.station_type ∧
      camZero.latitude = camZeroRole.latitude ∧
      camZero.longitude = camZeroRole.longitude ∧
      camZero.semi_major_axis_confidence =
        camZeroRole.semi_major_axis_confidence ∧
      camZero.semi_minor_axis_confidence =
        camZeroRole.semi_minor_axis_confidence ∧
      camZero.semi_major_orientation = camZeroRole.semi_major_orientation ∧
      camZero.altitude = camZeroRole.altitude ∧
      camZero.heading = camZeroRole.heading ∧
      camZero.heading_confidence = camZeroRole.heading_confidence ∧
      camZero.speed = camZeroRole.speed ∧
      camZero.speed_confidence = camZeroRole.speed_confidence ∧
      camZero.vehicle_length = camZeroRole.vehicle_length ∧
      camZero.vehicle_width = camZeroRole.vehicle_width ∧
      camZero.longitudinal_acceleration =
        camZeroRole.longitudinal_acceleration ∧
      camZero.longitudinal_acceleration_confidence =
        camZeroRole.longitudinal_acceleration_confidence ∧
      camZero.yaw_rate = camZeroRole.yaw_rate ∧
      camZero.yaw_rate_confidence = camZeroRole.yaw_rate_confidence ∧
      camZero.vehicle_role ≠ camZeroRole.vehicle_role := by
  decide

/-- C9 amended: for CAMs whose `message_id` attribute is present,
`__eq__` returns true iff all 22 wire fields are pairwise equal (the
derived `timestampits` is excluded), and equal CAMs have equal
`as_dict` field maps, hence equal hashes (the hash is
`hash(frozenset(as_dict().items()))`, a function of that map). -/
theorem cam_eq_iff_22_wire_fields (a b : CAM) (x y : ℤ)
    (ha : a.message_id = some x) (hb : b.message_id = some y) :
    (camEq a b = some true ↔
      (x = y ∧ a.station_id = b.station_id ∧
        a.gen_delta_time_millis = b.gen_delta_time_millis ∧
        a.container_mask = b.container_mask ∧
        a.station_type = b.station_type ∧
        a.latitude = b.latitude ∧ a.longitude = b.longitude ∧
        a.semi_major_axis_confidence = b.semi_major_axis_confidence ∧
        a.semi_minor_axis_confidence = b.semi_minor_axis_confidence ∧
        a.semi_major_orientation = b.semi_major_orientation ∧
        a.altitude = b.altitude ∧ a.heading = b.heading ∧
        a.heading_confidence = b.heading_confidence ∧
        a.speed = b.speed ∧ a.speed_confidence = b.speed_confidence ∧
        a.vehicle_length = b.vehicle_length ∧
        a.vehicle_width = b.vehicle_width ∧
        a.longitudinal_acceleration = b.longitudinal_acceleration ∧
        a.longitudinal_acceleration_confidence =
          b.longitudinal_acceleration_confidence ∧
        a.yaw_rate = b.yaw_rate ∧
        a.yaw_rate_confidence = b.yaw_rate_confidence ∧
        a.vehicle_role = b.vehicle_role)) ∧
    (camEq a b = some true → CAM.as_dict a = CAM.as_dict b) := by
  have hiff : camEq a b = some true ↔
      (x = y ∧ a.station_id = b.station_id ∧
        a.gen_delta_time_millis = b.gen_delta_time_millis ∧
        a.container_mask = b.container_mask ∧
        a.station_type = b.station_type ∧
        a.latitude = b.latitude ∧ a.longitude = b.longitude ∧
        a.semi_major_axis_confidence = b.semi_major_axis_confidence ∧
        a.semi_minor_axis_confidence = b.semi_minor_axis_confidence ∧
        a.semi_major_orientation = b.semi_major_orientation ∧
        a.altitude = b.altitude ∧ a.heading = b.heading ∧
        a.heading_confidence = b.heading_confidence ∧
        a.speed = b.speed ∧ a.speed_confidence = b.speed_confidence ∧
        a.vehicle_length = b.vehicle_length ∧
        a.vehicle_width = b.vehicle_width ∧
        a.longitudinal_acceleration = b.longitudinal_acceleration ∧
        a.longitudinal_acceleration_confidence =
          b.longitudinal_acceleration_confidence ∧
        a.yaw_rate = b.yaw_rate ∧
        a.yaw_rate_confidence = b.yaw_rate_confidence ∧
        a.vehicle_role = b.vehicle_role) := by
    simp [camEq, ha, hb, and_assoc]
  refine ⟨hiff, fun h => ?_⟩
  obtain ⟨h1, h2, h3, h4, h5, h6, h7, h8, h9, h10, h11, h12, h13, h14,
    h15, h16, h17, h18, h19, h20, h21, h22⟩ := hiff.mp h
  simp [CAM.as_dict, ha, hb, h1, h2, h3, h4, h5, h6, h7, h8, h9, h10,
    h11, h12, h13, h14, h15, h16, h17, h18, h19, h20, h21, h22]

/-- C9 amended, witness: two concrete CAMs differing only in the
derived timestamp compare equal and have equal hash inputs. -/
theorem cam_eq_iff_22_wire_fields_witness :
    camEq camZero camZeroLater = some true ∧
      CAM.as_dict camZero = CAM.as_dict camZeroLater :=
  ⟨(cam_eq_iff_22_wire_fields camZero camZeroLater 2 2 rfl rfl).1.mpr
      (by decide),
    (cam_eq_iff_22_wire_fields camZero camZeroLater 2 2 rfl rfl).2
      ((cam_eq_iff_22_wire_fields camZero camZeroLater 2 2 rfl rfl).1.mpr
        (by decide))⟩

/-- Comparison `x ≤ bound` against a bound that is `+∞` when `none`. -/
def leBound (x : ℝ) : Option ℝ → Prop
  | none => True
  | some b => x ≤ b

lemma not_gtBound_iff (x : ℝ) (o : Option ℝ) :
    ¬ gtBound x o ↔ leBound x o := by
  cases o with
  | none => simp [gtBound, leBound]
  | some b => simp [gtBound, leBound]

/-- C5: when the filter arguments are not the invalid combination,
`iter_cams` yields exactly the stored CAMs whose age relative to the
single per-call `now` snapshot is at most `max_age` and whose planar
Euclidean distance (in raw wire units) from the effective position
(`(0, 0)` when `position` is omitted) is at most `max_distance`, both
bounds being `+∞` when omitted. -/
theorem iter_cams_yields_iff (m : LDMStore) (position : Option (ℝ × ℝ))
    (max_distance max_age : Option ℝ) (now : ℤ)
    (h : ¬(max_distance.isSome ∧ position.isNone)) :
    ∃ l, iter_cams m position max_distance max_age now = .ok l ∧
      ∀ c : CAM, c ∈ l ↔ c ∈ m.map Prod.snd ∧
        leBound ((now : ℝ) - (c.timestampits : ℝ)) max_age ∧
        leBound (Real.sqrt
          (((c.longitude : ℝ) - (position.getD (0, 0)).1) ^ 2 +
            ((c.latitude : ℝ) - (position.getD (0, 0)).2) ^ 2))
          max_distance := by
  unfold iter_cams
  rw [if_neg h]
  refine ⟨_, rfl, fun c => ?_⟩
  rw [List.mem_filter]
  have hmd : (if position.isNone then none else max_distance) =
      max_distance := by
    cases hp : position with
    | none =>
      cases hd : max_distance with
      | none => simp
      | some d => exact absurd (by simp [hp, hd]) h
    | some p => simp
  rw [hmd]
  simp only [decide_eq_true_eq, not_gtBound_iff]

/-- C5 witness: with a one-entry store and every filter omitted, the
hypothesis holds and the characterization applies. -/
theorem iter_cams_yields_iff_witness :
    ¬((none : Option ℝ).isSome ∧ (none : Option (ℝ × ℝ)).isNone) ∧
      ∃ l, iter_cams [(1, camZero)] none none none 0 = .ok l ∧
        ∀ c : CAM, c ∈ l ↔ c ∈ ([(1, camZero)] : LDMStore).map Prod.snd ∧
          leBound (((0 : ℤ) : ℝ) - (c.timestampits : ℝ)) none ∧
          leBound (Real.sqrt
            (((c.longitude : ℝ) -
              ((none : Option (ℝ × ℝ)).getD (0, 0)).1) ^ 2 +
              ((c.latitude : ℝ) -
                ((none : Option (ℝ × ℝ)).getD (0, 0)).2) ^ 2))
            none :=
  ⟨by simp, iter_cams_yields_iff [(1, camZero)] none none none 0 (by simp)⟩

/-- The field assignment of the repository's own round-trip test
(`ldmlib_tests.py`): wire field number `i` gets value `i`, except
`message_id`, which must be 2. -/
def kwargsTest : CAMKwargs :=
  { message_id := some 2
    station_id := some 1
    gen_delta_time_millis := some 2
    container_mask := some 3
    station_type := some 4
    latitude := some 5
    longitude := some 6
    semi_major_axis_confidence := some 7
    semi_minor_axis_confidence := some 8
    semi_major_orientation := some 9
    altitude := some 10
    heading := some 11
    heading_confidence := some 12
    speed := some 13
    speed_confidence := some 14
    vehicle_length := some 15
    vehicle_width := some 16
    longitudinal_acceleration := some 17
    longitudinal_acceleration_confidence := some 18
    yaw_rate := some 19
    yaw_rate_confidence := some 20
    vehicle_role := some 21 }

/-- The CAM that `construct kwargsTest 0` produces. -/
def camTest : CAM :=
  { message_id := some 2
    station_id := 1
    gen_delta_time_millis := 2
    container_mask := 3
    station_type := 4
    latitude := 5
    longitude := 6
    semi_major_axis_confidence := 7
    semi_minor_axis_confidence := 8
    semi_major_orientation := 9
    altitude := 10
    heading := 11
    heading_confidence := 12
    speed := 13
    speed_confidence := 14
    vehicle_length := 15
    vehicle_width := 16
    longitudinal_acceleration := 17
    longitudinal_acceleration_confidence := 18
    yaw_rate := 19
    yaw_rate_confidence := 20
    vehicle_role := 21
    timestampits := 2 }

/-- The 82-byte wire image of `camTest`. -/
def bsTest : List ℤ :=
  [2, 0, 0, 0, 1, 0, 0, 0, 2, 3,
   0, 0, 0, 4, 0, 0, 0, 5, 0, 0, 0, 6, 0, 0, 0, 7, 0, 0, 0, 8,
   0, 0, 0, 9, 0, 0, 0, 10, 0, 0, 0, 11, 0, 0, 0, 12, 0, 0, 0, 13,
   0, 0, 0, 14, 0, 0, 0, 15, 0, 0, 0, 16, 0, 0, 0, 17, 0, 0, 0, 18,
   0, 0, 0, 19, 0, 0, 0, 20, 0, 0, 0, 21]

/-- `camTest` as re-decoded at clock 123456789: same wire fields, a
fresh derived timestamp (123456789 − 123456789 mod 65536 + 2). -/
def camTestDecoded : CAM :=
  { camTest with timestampits := 123404290 }

/-- C1: the round-trip contract fails when `message_id` is omitted from
a valid field assignment: construction succeeds, but the resulting
object lacks the `message_id` attribute, so `Encode` raises `KeyError`
(`none`) and `Decode(Encode(Construct(f)))` cannot be computed at all.
When `message_id = 2` is supplied the round trip does hold, shown here
on the repository test's field assignment with a decode clock far from
the encode clock (the derived timestamp differs but is excluded from
equality). -/
theorem roundtrip_fails_when_message_id_omitted :
    (∃ c, construct
        { station_id := some 5, gen_delta_time_millis := some 7 } 0 =
          .ok c ∧
      CAM.as_bytes c = none) ∧
    (construct kwargsTest 0 = .ok camTest ∧
      CAM.as_bytes camTest = some bsTest ∧
      CAM.from_bytes bsTest 123456789 = some camTestDecoded ∧
      camEq camTestDecoded camTest = some true) := by
  refine ⟨⟨_, rfl, rfl⟩, rfl, by decide, by decide, by decide⟩
